import Mathlib

/-!
Verification of the `SQLDatabase` wrapper (`sql_wrapper.py`).

The file shallowly embeds the wrapper's four operations:

* `get_table_columns`     — inspector column lookup;
* `get_single_table_info` — the table-description formatter;
* `insert_into_table`     — single-row insert (execute, then commit);
* `run_sql`               — raw SQL execution returning a display string
  and a mapping.

External collaborators (the SQLAlchemy inspector, metadata and engine)
are modelled as data carried by the `SQLDatabase` structure: the
inspector is a finite association list from table names to their column
and foreign-key descriptions, the metadata is the list of table names it
knows, and the engine is a function from a SQL command to the cursor it
produces.  A failed schema lookup (SQLAlchemy `NoSuchTableError`, or the
`KeyError` of the metadata table dictionary) is modelled as
`Except.error` of a `SchemaErr`.

Python string primitives used by the source are embedded explicitly:
`pyJoin` is `str.join`, `pySliceDropLast` is the slice `s[:-1]`,
`pyReprStr`/`pyStrList` model `repr`/`str` of strings and lists of
strings (exact for strings that do not mix both quote kinds and contain
no escapes, which covers every string the formatter builds), and
`pyReprRow`/`pyStrRows` model `str` applied to a fetched list of rows,
with cell values taken to be integers.
-/

/-- The apostrophe character, written via its code point. -/
def squote : Char := Char.ofNat 39

/-- The double-quote character, written via its code point. -/
def dquote : Char := Char.ofNat 34

/-- One-character string holding an apostrophe. -/
def squoteStr : String := String.mk [squote]

/-- One-character string holding a double quote. -/
def dquoteStr : String := String.mk [dquote]

/-- Python `sep.join(l)`. -/
def pyJoin (sep : String) : List String → String
  | [] => ""
  | [x] => x
  | x :: y :: ys => x ++ sep ++ pyJoin sep (y :: ys)

/-- Python slice `s[:-1]`: drop the final character (identity on `""`). -/
def pySliceDropLast (s : String) : String := String.mk s.data.dropLast

/-- Python `repr` of a string: double-quoted when the string contains an
apostrophe but no double quote, single-quoted otherwise.  Exact for
strings that do not contain both quote kinds and need no escapes. -/
def pyReprStr (s : String) : String :=
  if s.data.contains squote && !(s.data.contains dquote) then
    dquoteStr ++ s ++ dquoteStr
  else
    squoteStr ++ s ++ squoteStr

/-- Python `str` of a list of strings: bracketed, elements `repr`-ed and
joined by a comma and a space. -/
def pyStrList (xs : List String) : String :=
  "[" ++ pyJoin ", " (xs.map pyReprStr) ++ "]"

/-- A column descriptor as returned by `inspector.get_columns`: name,
declared type (already rendered to a string) and the optional comment
(`none` models a Python `None` comment). -/
structure Column where
  name : String
  type : String
  comment : Option String
deriving DecidableEq

/-- A foreign-key descriptor as returned by `inspector.get_foreign_keys`. -/
structure ForeignKey where
  constrained_columns : List String
  referred_table : String
  referred_columns : List String
deriving DecidableEq

/-- What the inspector knows about one table. -/
structure TableSchema where
  columns : List Column
  foreign_keys : List ForeignKey
deriving DecidableEq

/-- The schema inspector: a finite map from table names to schemas. -/
abbrev Inspector := List (String × TableSchema)

/-- Schema-lookup failures: SQLAlchemy `NoSuchTableError` raised by the
inspector, or the `KeyError` of `metadata.tables[table_name]`. -/
inductive SchemaErr where
  | noSuchTable (table : String)
  | missingKey (table : String)
deriving DecidableEq

/-- A row of a query result; cell values are modelled as integers. -/
abbrev Row := List Int

/-- The cursor returned by `connection.execute`: whether the statement
returns rows, and the rows `fetchall` would produce. -/
structure Cursor where
  returns_rows : Bool
  rows : List Row

/-- Operations issued on a connection, in order: used to record whether
a code path commits. -/
inductive DBOp where
  | executeInsert (table : String) (data : List (String × String))
  | executeText (command : String)
  | commit
deriving DecidableEq

/-- The wrapper object: inspector, metadata table-name set and engine. -/
structure SQLDatabase where
  inspector : Inspector
  metadata_tables : List String
  engine : String → Cursor

/-- `inspector.get_columns(table_name)`: the columns of a known table,
`NoSuchTableError` otherwise. -/
def get_columns (insp : Inspector) (table_name : String) :
    Except SchemaErr (List Column) :=
  match insp.lookup table_name with
  | some ts => .ok ts.columns
  | none => .error (SchemaErr.noSuchTable table_name)

/-- `inspector.get_foreign_keys(table_name)`. -/
def get_foreign_keys (insp : Inspector) (table_name : String) :
    Except SchemaErr (List ForeignKey) :=
  match insp.lookup table_name with
  | some ts => .ok ts.foreign_keys
  | none => .error (SchemaErr.noSuchTable table_name)

/-- `SQLDatabase.get_table_columns`. -/
def get_table_columns (db : SQLDatabase) (table_name : String) :
    Except SchemaErr (List Column) :=
  get_columns db.inspector table_name

/-- The column-rendering loop of `get_single_table_info`: a column whose
comment is truthy (neither `None` nor empty) is rendered as
`name (type) description <squote>comment<squote>`; any other column is
skipped (the `else: pass` branch of the source). -/
def renderedColumns (cols : List Column) : List String :=
  cols.filterMap fun column =>
    let base_info := column.name ++ " (" ++ column.type ++ ")"
    match column.comment with
    | some col_comment =>
        if col_comment = "" then none
        else some (base_info ++ " description " ++ squoteStr ++ col_comment ++ squoteStr)
    | none => none

/-- The foreign-key rendering of `get_single_table_info`: the f-string
interpolates the `str` of the constrained and referred column lists. -/
def renderForeignKey (fk : ForeignKey) : String :=
  pyStrList fk.constrained_columns ++ " -> " ++
    fk.referred_table ++ "." ++ pyStrList fk.referred_columns

/-- `SQLDatabase.get_single_table_info`: format the template with the
joined column renderings; when the joined foreign-key string is truthy,
drop the final character of the formatted string and append the
foreign-key clause, which interpolates the `str` of the Python list
`foreign_keys` and ends with a period. -/
def get_single_table_info (db : SQLDatabase) (table_name : String) :
    Except SchemaErr String :=
  match get_columns db.inspector table_name with
  | .error e => .error e
  | .ok cols =>
    match get_foreign_keys db.inspector table_name with
    | .error e => .error e
    | .ok fks =>
      let column_str := pyJoin ", " (renderedColumns cols)
      let foreign_keys := fks.map renderForeignKey
      let foreign_key_str := pyJoin ", " foreign_keys
      let table_str :=
        "Table " ++ squoteStr ++ table_name ++ squoteStr ++
          " has columns: " ++ column_str
      if foreign_key_str ≠ "" then
        .ok (pySliceDropLast table_str ++ " and foreign keys: " ++
          pyStrList foreign_keys ++ ".")
      else
        .ok table_str

/-- `SQLDatabase.insert_into_table`: look the table up in
`metadata.tables` (`KeyError` when absent), then execute the insert
statement and commit on the connection.  The returned list records the
connection operations in order. -/
def insert_into_table (db : SQLDatabase) (table_name : String)
    (data : List (String × String)) : Except SchemaErr (List DBOp) :=
  if table_name ∈ db.metadata_tables then
    .ok [DBOp.executeInsert table_name data, DBOp.commit]
  else
    .error (SchemaErr.missingKey table_name)

/-- Python `str` of one fetched row, rendered like a tuple of integers:
a one-element row carries the trailing comma. -/
def pyReprRow (r : Row) : String :=
  match r with
  | [x] => "(" ++ toString x ++ ",)"
  | _ => "(" ++ pyJoin ", " (r.map toString) ++ ")"

/-- Python `str` of the list of fetched rows. -/
def pyStrRows (rs : List Row) : String :=
  "[" ++ pyJoin ", " (rs.map pyReprRow) ++ "]"

/-- `SQLDatabase.run_sql`: execute the command on a fresh connection.
When the cursor returns rows, fetch them all and return their string
rendering together with the mapping binding `"result"` to them;
otherwise return the empty string and the empty mapping.  The second
component records the connection operations: the command is executed
and nothing is ever committed on this path. -/
def run_sql (db : SQLDatabase) (command : String) :
    (String × List (String × List Row)) × List DBOp :=
  let cursor := db.engine command
  if cursor.returns_rows then
    let result := cursor.rows
    ((pyStrRows result, [("result", result)]), [DBOp.executeText command])
  else
    (("", []), [DBOp.executeText command])

/-- Python truthiness of an optional string: `None` and the empty string
are falsy, every other string is truthy. -/
def pyTruthyOptStr : Option String → Bool
  | none => false
  | some s => if s = "" then false else true

/-- `true` when the second character list starts with the first. -/
def startsWithChars : List Char → List Char → Bool
  | [], _ => true
  | _ :: _, [] => false
  | a :: as, b :: bs => a == b && startsWithChars as bs

/-- `true` when the second character list occurs contiguously inside the
first. -/
def containsChars : List Char → List Char → Bool
  | [], pat => pat.isEmpty
  | h :: t, pat => startsWithChars pat (h :: t) || containsChars t pat

/-! ### Concrete example databases -/

/-- An engine on which every statement returns no rows. -/
def engineNoRows : String → Cursor := fun _ => ⟨false, []⟩

/-- An engine on which exactly `SELECT 1` produces the single row `(1,)`. -/
def engineSelectOne : String → Cursor := fun cmd =>
  if cmd = "SELECT 1" then ⟨true, [[1]]⟩ else ⟨false, []⟩

/-- A table whose single column `x` has no comment. -/
def tsUncommented : TableSchema := ⟨[⟨"x", "INT", none⟩], []⟩

/-- A table with one commented and one uncommented column, no foreign keys. -/
def tsCommented : TableSchema :=
  ⟨[⟨"id", "INTEGER", some "key col"⟩, ⟨"x", "INT", none⟩], []⟩

/-- A table with one commented column and one foreign key. -/
def tsOneFK : TableSchema := ⟨[⟨"x", "INT", some "c"⟩], [⟨["a"], "s", ["b"]⟩]⟩

def dbUncommented : SQLDatabase := ⟨[("t", tsUncommented)], [], engineNoRows⟩

def dbCommented : SQLDatabase := ⟨[("t", tsCommented)], [], engineNoRows⟩

def dbOneFK : SQLDatabase := ⟨[("t", tsOneFK)], [], engineNoRows⟩

/-- Empty inspector; the metadata knows table `t`. -/
def dbInsertOnly : SQLDatabase := ⟨[], ["t"], engineNoRows⟩

/-- Empty inspector and metadata, over the `SELECT 1` engine. -/
def dbEmpty : SQLDatabase := ⟨[], [], engineSelectOne⟩


/-! ### Helper lemmas about the embedded string primitives -/

theorem str_ne_empty_of_data_ne_nil {s : String} (h : s.data ≠ []) : s ≠ "" :=
  fun he => h (he ▸ rfl)

theorem getLast?_str_append (a b : String) (hb : b.data ≠ []) :
    (a ++ b).data.getLast? = b.data.getLast? := by
  rw [String.data_append]
  exact List.getLast?_append_of_ne_nil _ hb

theorem pyJoin_data_ne_nil (sep : String) :
    ∀ l : List String, l ≠ [] → (∀ x ∈ l, x.data ≠ []) → (pyJoin sep l).data ≠ []
  | [], h0, _ => absurd rfl h0
  | [x], _, h1 => by simpa [pyJoin] using h1 x (by simp)
  | x :: y :: ys, _, h1 => by
      have hx := h1 x (by simp)
      simp only [pyJoin, String.data_append, ne_eq, List.append_eq_nil]
      intro h
      exact hx h.1.1

theorem pyJoin_getLast (sep : String) (l : List String)
    (h1 : ∀ x ∈ l, x.data ≠ []) (h0 : l ≠ []) :
    ∃ x ∈ l, (pyJoin sep l).data.getLast? = x.data.getLast? := by
  induction l with
  | nil => exact absurd rfl h0
  | cons x xs ih =>
      cases xs with
      | nil => exact ⟨x, by simp, by simp [pyJoin]⟩
      | cons y ys =>
          obtain ⟨z, hz, hlast⟩ :=
            ih (fun a ha => h1 a (List.mem_cons_of_mem _ ha)) (by simp)
          refine ⟨z, List.mem_cons_of_mem _ hz, ?_⟩
          have hrest : (pyJoin sep (y :: ys)).data ≠ [] :=
            pyJoin_data_ne_nil sep (y :: ys) (by simp)
              (fun a ha => h1 a (List.mem_cons_of_mem _ ha))
          calc (pyJoin sep (x :: y :: ys)).data.getLast?
              = ((x ++ sep) ++ pyJoin sep (y :: ys)).data.getLast? := by
                simp [pyJoin, String.append_assoc]
            _ = (pyJoin sep (y :: ys)).data.getLast? := getLast?_str_append _ _ hrest
            _ = z.data.getLast? := hlast

/-- The column loop is the rendering of exactly the truthily-commented
columns. -/
theorem renderedColumns_eq (cols : List Column) :
    renderedColumns cols =
      (cols.filter fun c => pyTruthyOptStr c.comment).map
        (fun c => c.name ++ " (" ++ c.type ++ ")" ++ " description " ++
          squoteStr ++ c.comment.getD "" ++ squoteStr) := by
  induction cols with
  | nil => rfl
  | cons c cs ih =>
      cases hc : c.comment with
      | none =>
          simpa [renderedColumns, List.filterMap_cons, List.filter_cons, hc,
            pyTruthyOptStr] using ih
      | some cc =>
          by_cases hcc : cc = ""
          · simpa [renderedColumns, List.filterMap_cons, List.filter_cons, hc,
              hcc, pyTruthyOptStr] using ih
          · simpa [renderedColumns, List.filterMap_cons, List.filter_cons, hc,
              hcc, pyTruthyOptStr] using ih

/-- Every rendered column is non-empty and ends with an apostrophe. -/
theorem renderedColumns_mem_last (cols : List Column) :
    ∀ s ∈ renderedColumns cols, s.data ≠ [] ∧ s.data.getLast? = some squote := by
  rw [renderedColumns_eq]
  intro s hs
  obtain ⟨c, _, rfl⟩ := List.mem_map.mp hs
  have hq : squoteStr.data ≠ [] := by simp [squoteStr]
  constructor
  · simp [String.data_append, squoteStr]
  · rw [getLast?_str_append _ squoteStr hq]
    simp [squoteStr]

/-- Every rendered foreign key is a non-empty string. -/
theorem renderForeignKey_data_ne_nil (fk : ForeignKey) :
    (renderForeignKey fk).data ≠ [] := by
  simp [renderForeignKey, pyStrList, String.data_append]

/-- Unfolding of `get_single_table_info` on a known table with no
foreign keys: the foreign-key branch is skipped and the formatted
template is returned unchanged. -/
theorem get_single_table_info_no_fk (db : SQLDatabase) (t : String)
    (ts : TableSchema) (h : db.inspector.lookup t = some ts)
    (hfk : ts.foreign_keys = []) :
    get_single_table_info db t =
      .ok ("Table " ++ squoteStr ++ t ++ squoteStr ++ " has columns: " ++
        pyJoin ", " (renderedColumns ts.columns)) := by
  simp only [get_single_table_info, get_columns, get_foreign_keys, h, hfk,
    List.map_nil, pyJoin, ne_eq, not_true_eq_false, if_false, ite_self]

/-- Unfolding of `get_single_table_info` on a known table with at least
one foreign key: the final character of the formatted template is
dropped and the foreign-key clause is appended. -/
theorem get_single_table_info_fk (db : SQLDatabase) (t : String)
    (ts : TableSchema) (h : db.inspector.lookup t = some ts)
    (hfk : ts.foreign_keys ≠ []) :
    get_single_table_info db t =
      .ok (pySliceDropLast ("Table " ++ squoteStr ++ t ++ squoteStr ++
            " has columns: " ++ pyJoin ", " (renderedColumns ts.columns)) ++
          " and foreign keys: " ++
          pyStrList (ts.foreign_keys.map renderForeignKey) ++ ".") := by
  have hmap : ts.foreign_keys.map renderForeignKey ≠ [] := by
    simpa using hfk
  have hjoin : pyJoin ", " (ts.foreign_keys.map renderForeignKey) ≠ "" := by
    refine str_ne_empty_of_data_ne_nil (pyJoin_data_ne_nil _ _ hmap ?_)
    intro x hx
    obtain ⟨fk, _, rfl⟩ := List.mem_map.mp hx
    exact renderForeignKey_data_ne_nil fk
  simp only [get_single_table_info, get_columns, get_foreign_keys, h,
    if_pos hjoin]

/-! ### Claim theorems -/

/-- Claim C3 (confirmed): a successful `insert_into_table` executes the
insert statement and then commits before returning, while `run_sql`
never issues a commit for a statement that returns no rows, so only the
insert path guarantees the write is committed. -/
theorem insert_commits_run_sql_does_not (db : SQLDatabase) (t : String)
    (data : List (String × String)) (tr : List DBOp)
    (h : insert_into_table db t data = .ok tr) (command : String)
    (hnr : (db.engine command).returns_rows = false) :
    tr = [DBOp.executeInsert t data, DBOp.commit] ∧
    DBOp.commit ∉ (run_sql db command).2 := by
  constructor
  · by_cases hm : t ∈ db.metadata_tables
    · simp only [insert_into_table, if_pos hm, Except.ok.injEq] at h
      exact h.symm
    · simp [insert_into_table, if_neg hm] at h
  · simp [run_sql, hnr]

/-- Witness for C3 at a concrete database and statement. -/
theorem insert_commits_run_sql_does_not_witness :
    insert_into_table dbInsertOnly "t" [("x", "5")] =
      .ok [DBOp.executeInsert "t" [("x", "5")], DBOp.commit] ∧
    (dbInsertOnly.engine "UPDATE t SET x = 6").returns_rows = false ∧
    ([DBOp.executeInsert "t" [("x", "5")], DBOp.commit] =
        [DBOp.executeInsert "t" [("x", "5")], DBOp.commit] ∧
      DBOp.commit ∉ (run_sql dbInsertOnly "UPDATE t SET x = 6").2) :=
  ⟨rfl, rfl,
    insert_commits_run_sql_does_not dbInsertOnly "t" [("x", "5")] _
      rfl "UPDATE t SET x = 6" rfl⟩

/-- Claim C4 (confirmed): for a table name unknown to the inspector and
to the metadata, `get_table_columns`, `get_single_table_info` and
`insert_into_table` each fail with a schema-lookup error instead of
returning a value. -/
theorem unknown_table_schema_failure (db : SQLDatabase) (t : String)
    (hi : db.inspector.lookup t = none) (hm : t ∉ db.metadata_tables)
    (data : List (String × String)) :
    get_table_columns db t = .error (SchemaErr.noSuchTable t) ∧
    get_single_table_info db t = .error (SchemaErr.noSuchTable t) ∧
    insert_into_table db t data = .error (SchemaErr.missingKey t) := by
  refine ⟨?_, ?_, ?_⟩
  · simp [get_table_columns, get_columns, hi]
  · simp [get_single_table_info, get_columns, hi]
  · simp [insert_into_table, hm]

/-- Witness for C4 at a concrete database and unknown table name. -/
theorem unknown_table_schema_failure_witness :
    dbEmpty.inspector.lookup "missing" = none ∧
    "missing" ∉ dbEmpty.metadata_tables ∧
    (get_table_columns dbEmpty "missing" =
        .error (SchemaErr.noSuchTable "missing") ∧
      get_single_table_info dbEmpty "missing" =
        .error (SchemaErr.noSuchTable "missing") ∧
      insert_into_table dbEmpty "missing" [("x", "5")] =
        .error (SchemaErr.missingKey "missing")) :=
  ⟨rfl, by decide,
    unknown_table_schema_failure dbEmpty "missing" rfl (by decide)
      [("x", "5")]⟩

/-- Claim C5 (confirmed): a statement that produces no result rows makes
`run_sql` return exactly the empty string and the empty mapping. -/
theorem run_sql_no_rows_empty_pair (db : SQLDatabase) (command : String)
    (h : (db.engine command).returns_rows = false) :
    (run_sql db command).1 = ("", []) := by
  simp [run_sql, h]

/-- Witness for C5 on a DDL statement of the `SELECT 1` engine. -/
theorem run_sql_no_rows_empty_pair_witness :
    (dbEmpty.engine "CREATE TABLE t(x INT)").returns_rows = false ∧
    (run_sql dbEmpty "CREATE TABLE t(x INT)").1 = ("", []) :=
  ⟨rfl, run_sql_no_rows_empty_pair dbEmpty "CREATE TABLE t(x INT)" rfl⟩

/-- Claim C6 (confirmed): a row-returning statement makes `run_sql`
fetch all rows and return the pair of their string rendering and the
mapping with the single key `"result"` bound to the fetched rows; the
display string is non-empty. -/
theorem run_sql_rows_result_pair (db : SQLDatabase) (command : String)
    (h : (db.engine command).returns_rows = true) :
    (run_sql db command).1 =
      (pyStrRows (db.engine command).rows,
        [("result", (db.engine command).rows)]) ∧
    (run_sql db command).1.1 ≠ "" := by
  refine ⟨by simp [run_sql, h], ?_⟩
  simp only [run_sql, h, if_pos]
  refine str_ne_empty_of_data_ne_nil ?_
  simp only [pyStrRows, String.data_append, ne_eq, List.append_eq_nil]
  intro hc
  exact absurd hc.2 (by decide)

/-- Witness for C6 on `SELECT 1`: non-empty display string `[(1,)]` and
the row-shaped mapping. -/
theorem run_sql_rows_result_pair_witness :
    (dbEmpty.engine "SELECT 1").returns_rows = true ∧
    ((run_sql dbEmpty "SELECT 1").1 =
        (pyStrRows (dbEmpty.engine "SELECT 1").rows,
          [("result", (dbEmpty.engine "SELECT 1").rows)]) ∧
      (run_sql dbEmpty "SELECT 1").1.1 ≠ "") ∧
    (run_sql dbEmpty "SELECT 1").1 = ("[(1,)]", [("result", [[1]])]) :=
  ⟨rfl, run_sql_rows_result_pair dbEmpty "SELECT 1" rfl, rfl⟩

/-- Claim C10 (confirmed): for a row-returning execution the display
string is exactly the string rendering of the value stored under the
`"result"` key of the returned mapping. -/
theorem display_string_matches_result_key (db : SQLDatabase)
    (command : String) (rows : List Row)
    (h : (db.engine command).returns_rows = true)
    (hr : ((run_sql db command).1.2).lookup "result" = some rows) :
    (run_sql db command).1.1 = pyStrRows rows := by
  simp only [run_sql, h, if_pos] at hr ⊢
  simp [List.lookup] at hr
  rw [hr]

/-- Witness for C10 on `SELECT 1`. -/
theorem display_string_matches_result_key_witness :
    (dbEmpty.engine "SELECT 1").returns_rows = true ∧
    ((run_sql dbEmpty "SELECT 1").1.2).lookup "result" = some [[1]] ∧
    (run_sql dbEmpty "SELECT 1").1.1 = pyStrRows [[1]] :=
  ⟨rfl, rfl,
    display_string_matches_result_key dbEmpty "SELECT 1" [[1]] rfl rfl⟩

/-- Claim C1, counterexample: in a table whose single column `x` has no
comment, the output omits the column entirely — `x (INT)` does not
occur in the rendered description — contradicting the claim that
columns without a comment still appear. -/
theorem uncommented_column_omitted_counterexample :
    get_single_table_info dbUncommented "t" = .ok "Table 't' has columns: " ∧
    containsChars (String.data "Table 't' has columns: ")
      (String.data "x (INT)") = false :=
  ⟨rfl, rfl⟩

/-- Claim C1 (corrected): for a table with no foreign keys the output
renders exactly the columns whose comment is truthy (non-`None` and
non-empty), each as `name (type) description <squote>comment<squote>`,
joined by `", "`; columns with an empty or absent comment are omitted
entirely. -/
theorem commented_columns_only_rendered (db : SQLDatabase) (t : String)
    (ts : TableSchema) (h : db.inspector.lookup t = some ts)
    (hfk : ts.foreign_keys = []) :
    get_single_table_info db t =
      .ok ("Table " ++ squoteStr ++ t ++ squoteStr ++ " has columns: " ++
        pyJoin ", " ((ts.columns.filter fun c => pyTruthyOptStr c.comment).map
          fun c => c.name ++ " (" ++ c.type ++ ")" ++ " description " ++
            squoteStr ++ c.comment.getD "" ++ squoteStr)) := by
  rw [get_single_table_info_no_fk db t ts h hfk, renderedColumns_eq]

/-- Witness for the corrected C1 on a table with one commented and one
uncommented column. -/
theorem commented_columns_only_rendered_witness :
    dbCommented.inspector.lookup "t" = some tsCommented ∧
    tsCommented.foreign_keys = [] ∧
    get_single_table_info dbCommented "t" =
      .ok "Table 't' has columns: id (INTEGER) description 'key col'" :=
  ⟨rfl, rfl,
    (commented_columns_only_rendered dbCommented "t" tsCommented rfl
      rfl).trans (by rfl)⟩

/-- Claim C2, counterexample: the base sentence carries no trailing
period, so the final-character removal performed by the foreign-key
branch deletes the closing apostrophe of the last column description;
the output differs from what the claim predicts (the intact base
sentence followed by the clause). -/
theorem fk_clause_counterexample :
    get_single_table_info dbOneFK "t" =
      .ok "Table 't' has columns: x (INT) description 'c and foreign keys: [\"['a'] -> s.['b']\"]." ∧
    "Table 't' has columns: x (INT) description 'c and foreign keys: [\"['a'] -> s.['b']\"]." ≠
      "Table 't' has columns: x (INT) description 'c' and foreign keys: [\"['a'] -> s.['b']\"]." :=
  ⟨rfl, by decide⟩

/-- Claim C2 (corrected): for a table with at least one foreign key the
output is the base column sentence with its final character removed
(the base carries no trailing period to remove), followed by
`" and foreign keys: "`, the Python list rendering of the per-key
strings `constrained columns -> referred_table.referred columns`, and a
final period, all stitched onto the same sentence. -/
theorem fk_clause_after_last_char_dropped (db : SQLDatabase) (t : String)
    (ts : TableSchema) (h : db.inspector.lookup t = some ts)
    (hfk : ts.foreign_keys ≠ []) :
    get_single_table_info db t =
      .ok (pySliceDropLast ("Table " ++ squoteStr ++ t ++ squoteStr ++
            " has columns: " ++ pyJoin ", " (renderedColumns ts.columns)) ++
          " and foreign keys: " ++
          pyStrList (ts.foreign_keys.map fun fk =>
            pyStrList fk.constrained_columns ++ " -> " ++
              fk.referred_table ++ "." ++ pyStrList fk.referred_columns) ++
          ".") :=
  get_single_table_info_fk db t ts h hfk

/-- Witness for the corrected C2 on a one-foreign-key table. -/
theorem fk_clause_after_last_char_dropped_witness :
    dbOneFK.inspector.lookup "t" = some tsOneFK ∧
    tsOneFK.foreign_keys ≠ [] ∧
    get_single_table_info dbOneFK "t" =
      .ok "Table 't' has columns: x (INT) description 'c and foreign keys: [\"['a'] -> s.['b']\"]." :=
  ⟨rfl, by decide,
    (fk_clause_after_last_char_dropped dbOneFK "t" tsOneFK rfl
      (by decide)).trans (by rfl)⟩

/-- Claim C7 (confirmed): with no foreign keys the output ends right
after the column list — the foreign-key branch appends nothing — and
its final character is never a period, so a period appears only when a
foreign-key clause is present. -/
theorem no_fk_no_trailing_period (db : SQLDatabase) (t : String)
    (ts : TableSchema) (h : db.inspector.lookup t = some ts)
    (hfk : ts.foreign_keys = []) :
    get_single_table_info db t =
      .ok ("Table " ++ squoteStr ++ t ++ squoteStr ++ " has columns: " ++
        pyJoin ", " (renderedColumns ts.columns)) ∧
    ("Table " ++ squoteStr ++ t ++ squoteStr ++ " has columns: " ++
      pyJoin ", " (renderedColumns ts.columns)).data.getLast? ≠
        some ('.' : Char) := by
  refine ⟨get_single_table_info_no_fk db t ts h hfk, ?_⟩
  cases hrc : renderedColumns ts.columns with
  | nil =>
      simp only [pyJoin, String.append_empty]
      rw [getLast?_str_append _ " has columns: " (by decide)]
      decide
  | cons x xs =>
      have hmem := renderedColumns_mem_last ts.columns
      rw [hrc] at hmem
      have h1 : ∀ s ∈ x :: xs, s.data ≠ [] := fun s hs => (hmem s hs).1
      have hne : (pyJoin ", " (x :: xs)).data ≠ [] :=
        pyJoin_data_ne_nil _ _ (by simp) h1
      rw [getLast?_str_append _ _ hne]
      obtain ⟨z, hz, hlast⟩ := pyJoin_getLast ", " (x :: xs) h1 (by simp)
      rw [hlast, (hmem z hz).2]
      decide

/-- Witness for C7 on a no-foreign-key table. -/
theorem no_fk_no_trailing_period_witness :
    dbCommented.inspector.lookup "t" = some tsCommented ∧
    tsCommented.foreign_keys = [] ∧
    (get_single_table_info dbCommented "t" =
        .ok ("Table " ++ squoteStr ++ "t" ++ squoteStr ++ " has columns: " ++
          pyJoin ", " (renderedColumns tsCommented.columns)) ∧
      ("Table " ++ squoteStr ++ "t" ++ squoteStr ++ " has columns: " ++
        pyJoin ", " (renderedColumns tsCommented.columns)).data.getLast? ≠
          some ('.' : Char)) :=
  ⟨rfl, rfl, no_fk_no_trailing_period dbCommented "t" tsCommented rfl rfl⟩

/-- Claim C8 (confirmed): with at least one foreign key the final
character of the period-free base string is dropped at the character
level, then `" and foreign keys: "` plus the Python list-literal
rendering of the per-foreign-key strings is appended, and every
returned description ends with a period. -/
theorem fk_truncation_and_final_period (db : SQLDatabase) (t : String)
    (ts : TableSchema) (h : db.inspector.lookup t = some ts)
    (hfk : ts.foreign_keys ≠ []) :
    get_single_table_info db t =
      .ok (String.mk (("Table " ++ squoteStr ++ t ++ squoteStr ++
            " has columns: " ++
            pyJoin ", " (renderedColumns ts.columns)).data.dropLast) ++
          " and foreign keys: " ++
          pyStrList (ts.foreign_keys.map renderForeignKey) ++ ".") ∧
    ∀ s, get_single_table_info db t = .ok s →
      s.data.getLast? = some ('.' : Char) := by
  refine ⟨get_single_table_info_fk db t ts h hfk, ?_⟩
  intro s hs
  rw [get_single_table_info_fk db t ts h hfk] at hs
  injection hs with h'
  subst h'
  rw [getLast?_str_append _ "." (by decide)]
  decide

/-- Witness for C8 on a one-foreign-key table. -/
theorem fk_truncation_and_final_period_witness :
    dbOneFK.inspector.lookup "t" = some tsOneFK ∧
    tsOneFK.foreign_keys ≠ [] ∧
    (get_single_table_info dbOneFK "t" =
        .ok (String.mk (("Table " ++ squoteStr ++ "t" ++ squoteStr ++
              " has columns: " ++
              pyJoin ", " (renderedColumns tsOneFK.columns)).data.dropLast) ++
            " and foreign keys: " ++
            pyStrList (tsOneFK.foreign_keys.map renderForeignKey) ++ ".") ∧
      ∀ s, get_single_table_info dbOneFK "t" = .ok s →
        s.data.getLast? = some ('.' : Char)) :=
  ⟨rfl, by decide,
    fk_truncation_and_final_period dbOneFK "t" tsOneFK rfl (by decide)⟩

/-- Claim C9 (confirmed): a table none of whose columns carries a
truthy comment and with no foreign keys yields exactly the header with
an empty column list, even when the table has columns. -/
theorem all_uncommented_empty_column_list (db : SQLDatabase) (t : String)
    (ts : TableSchema) (h : db.inspector.lookup t = some ts)
    (hc : ∀ c ∈ ts.columns, pyTruthyOptStr c.comment = false)
    (hfk : ts.foreign_keys = []) :
    get_single_table_info db t =
      .ok ("Table " ++ squoteStr ++ t ++ squoteStr ++ " has columns: ") := by
  rw [get_single_table_info_no_fk db t ts h hfk, renderedColumns_eq]
  have hfil : ts.columns.filter (fun c => pyTruthyOptStr c.comment) = [] :=
    List.filter_eq_nil_iff.mpr (by simpa using hc)
  rw [hfil]
  simp [pyJoin]

/-- Witness for C9 on a one-column table without comments. -/
theorem all_uncommented_empty_column_list_witness :
    dbUncommented.inspector.lookup "t" = some tsUncommented ∧
    (∀ c ∈ tsUncommented.columns, pyTruthyOptStr c.comment = false) ∧
    tsUncommented.foreign_keys = [] ∧
    get_single_table_info dbUncommented "t" =
      .ok ("Table " ++ squoteStr ++ "t" ++ squoteStr ++ " has columns: ") :=
  ⟨rfl, by decide, rfl,
    all_uncommented_empty_column_list dbUncommented "t" tsUncommented rfl
      (by decide) rfl⟩
